import Mathlib

/-!
Shallow embedding of `internal/tools/mongodb/mongodb.go` from the
genai-toolbox repository (the operation-aware `mongodb-atlas` tool),
together with theorems settling the specification claims about it.

Go values of type `any` / BSON values are embedded as the inductive
`Value`; a Go `map[string]any` (a `bson.M`) is embedded as an
association list `Doc` with last-write-wins insertion (`setKey`),
which reproduces Go map assignment `m[k] = v`.  Go map aliasing is
made explicit: `Tool.invoke` returns, besides the result, the final
state of the tool's stored `Query` map (in Go, `filter := t.Query`
aliases the stored map, so every overlay writes through to it) and
the list of calls issued to the backing store.
-/

namespace Mongodb

/-- Embedding of Go `any` values as they appear in this code: strings,
integers, booleans, float literals (opaque: the code never computes with
them), sequences (`[]interface{}`), documents (`map[string]any` /
`bson.M`), and `nil`. -/
inductive Value where
  | str : String → Value
  | int : Int → Value
  | bool : Bool → Value
  | dbl : String → Value
  | arr : List Value → Value
  | doc : List (String × Value) → Value
  | null : Value
  deriving Repr

/-- A Go `map[string]any` (`bson.M`), as an association list. -/
abbrev Doc := List (String × Value)

/-- Go map assignment `m[k] = v`: overwrite the entry with key `k` if
present, otherwise add it. -/
def setKey (m : Doc) (k : String) (v : Value) : Doc :=
  if m.any (fun p => p.1 == k) then
    m.map (fun p => if p.1 == k then (k, v) else p)
  else
    m ++ [(k, v)]

/-- Go map lookup `m[k]`. -/
def lookupKey (m : Doc) (k : String) : Option Value :=
  (m.find? (fun p => p.1 == k)).map (fun p => p.2)

/-- Go `delete(m, k)`. -/
def deleteKey (m : Doc) (k : String) : Doc :=
  m.filter (fun p => !(p.1 == k))

/-- The loop `for key, value := range params { m[key] = value }`. -/
def overlay (base : Doc) (params : List (String × Value)) : Doc :=
  params.foldl (fun m p => setKey m p.1 p.2) base

/-- `params.AsMap()`: the validated parameter list viewed as a map
(duplicate names collapse last-write-wins, as in a Go map). -/
def asMap (params : List (String × Value)) : Doc :=
  overlay [] params

/-- The Go type assertion `v.(string)` on an optional map entry. -/
def getStr : Option Value → Option String
  | some (Value.str s) => some s
  | _ => none

/-- The Go type assertion `v.([]interface\x7b\x7d)` on an optional map
entry: succeeds exactly on a generic sequence, never inspecting the
element values. -/
def getArr : Option Value → Option (List Value)
  | some (Value.arr l) => some l
  | _ => none

/-- A document stream as delivered by the driver: each `cursor.Next` /
`cursor.Decode` step yields a document or a decode failure, and
`cursor.Err()` after exhaustion is `finalErr`. -/
structure Cursor where
  items : List (Except String Doc)
  finalErr : Option String

/-- The backing store (one collection of one database, as obtained by
`t.Client.Database(t.Database).Collection(t.Collection)`): a filter read
(`collection.Find`) and a pipeline aggregation (`collection.Aggregate`),
each failing or returning a stream. -/
structure Store where
  find : Doc → Except String Cursor
  aggregate : List Doc → Except String Cursor

/-- One call issued to the backing store during an invocation. -/
inductive StoreCall where
  | findCall (filter : Doc)
  | aggregateCall (pipeline : List Doc)

/-- Embedding of the `ParameterSchema` descriptors (name, declared type,
required flag, description); only carried through binding, never consulted
by `Invoke` itself. -/
structure ParamDecl where
  name : String
  type : String
  required : Bool
  description : String

/-- Embedding of Go `Config` (the declarative tool configuration). -/
structure Config where
  Name : String
  Kind : String
  Source : String
  Description : String
  Collection : String
  Operation : String
  Query : Doc
  AuthRequired : List String
  Parameters : List ParamDecl
  RequestBody : String

namespace Sources

/-- A named backing-store binding from the host's source map: either a
MongoDB source (`*mongodbsrc.Source`, carrying its database name) or a
source of some other kind (the failed type assertion
`rawS.(*mongodbsrc.Source)`). -/
inductive Source where
  | mongodb (databaseName : String)
  | other (kind : String)

end Sources

/-- Embedding of Go `Tool` (the runtime-bound tool). The live client
handle is represented by the `Store` argument of `Tool.invoke`. -/
structure Tool where
  Name : String
  Kind : String
  AuthRequired : List String
  Parameters : List ParamDecl
  Operation : String
  Database : String
  Collection : String
  RequestBody : String
  Query : Doc

def ToolKind : String := "mongodb-atlas"

/-- Go source-map lookup `srcs[cfg.Source]`. -/
def lookupSource (srcs : List (String × Sources.Source)) (name : String) :
    Option Sources.Source :=
  (srcs.find? (fun p => p.1 == name)).map (fun p => p.2)

/-- Embedding of Go `Config.Initialize`: verify the named source exists,
verify it is a MongoDB source, then bind the tool (copying the
configuration fields and taking the database name from the source). -/
def Config.initTool (cfg : Config) (srcs : List (String × Sources.Source)) :
    Except String Tool :=
  match lookupSource srcs cfg.Source with
  | none => Except.error ("no source named \"" ++ cfg.Source ++ "\" configured")
  | some (Sources.Source.other _) =>
      Except.error ("invalid source for \"" ++ ToolKind ++ "\" tool")
  | some (Sources.Source.mongodb db) =>
      Except.ok
        { Name := cfg.Name
          Kind := ToolKind
          AuthRequired := cfg.AuthRequired
          Parameters := cfg.Parameters
          Operation := cfg.Operation
          Database := db
          Collection := cfg.Collection
          RequestBody := cfg.RequestBody
          Query := cfg.Query }

/-- Drain a cursor stream: decode each item (first decode failure aborts
with a parse error), apply `f` to each decoded document (identity for
`find`; field strip for `vectorSearch`), accumulate in stream order. -/
def drainItems (items : List (Except String Doc)) (f : Doc → Doc) :
    Except String (List Doc) :=
  match items with
  | [] => Except.ok []
  | Except.error e :: _ => Except.error ("unable to parse document: " ++ e)
  | Except.ok d :: rest =>
      match drainItems rest f with
      | Except.error e => Except.error e
      | Except.ok ds => Except.ok (f d :: ds)

/-- The full read loop: drain the stream, then check `cursor.Err()`. -/
def drainCursor (c : Cursor) (f : Doc → Doc) : Except String (List Doc) :=
  match drainItems c.items f with
  | Except.error e => Except.error e
  | Except.ok ds =>
      match c.finalErr with
      | some e => Except.error ("cursor error: " ++ e)
      | none => Except.ok ds

/-- Everything observable about one `Invoke` call: the returned value
(result sequence or error), the final state of the tool's stored `Query`
map (mutated through the `filter := t.Query` alias), the calls issued to
the backing store, and the debug print of the aggregate branch
(the `(filter, pipeline)` pair it prints, `none` in every other branch). -/
structure InvokeResult where
  ret : Except String (List Doc)
  query : Doc
  calls : List StoreCall
  debugPrint : Option (Doc × List Doc)

/-- The `$vectorSearch` pipeline stage built in the `vectorSearch`
branch. -/
def vectorStage (indexName : String) (embeddings : List Value)
    (path : String) : Doc :=
  [("$vectorSearch", Value.doc
      [("index", Value.str indexName),
       ("queryVector", Value.arr embeddings),
       ("path", Value.str path),
       ("numCandidates", Value.int 10),
       ("limit", Value.int 10)])]

/-- The `case "find"` body of the Go switch in `Tool.Invoke`: overlay the
parameters onto the (aliased) stored template, run `collection.Find`,
drain the cursor. -/
def findBranch (t : Tool) (store : Store) (pm : Doc) : InvokeResult :=
  let filter := overlay t.Query pm
  match store.find filter with
  | Except.error e =>
      { ret := Except.error ("unable to execute query: " ++ e)
        query := filter
        calls := [StoreCall.findCall filter]
        debugPrint := none }
  | Except.ok cur =>
      { ret := drainCursor cur (fun d => d)
        query := filter
        calls := [StoreCall.findCall filter]
        debugPrint := none }

/-- The `case "aggregate"` body: build one pipeline stage per parameter,
overlay the parameters onto the (aliased) stored template, print both,
refuse with the not-implemented error; no store call. -/
def aggregateBranch (t : Tool) (pm : Doc) : InvokeResult :=
  let pipeline := pm.map (fun p => [(p.1, p.2)])
  let filter := overlay t.Query pm
  { ret := Except.error "aggregate operation not implemented"
    query := filter
    calls := []
    debugPrint := some (filter, pipeline) }

/-- The `case "vectorSearch"` body: overlay the parameters onto the
(aliased) stored template, type-check the three required parameters,
build the one-stage `$vectorSearch` pipeline, run `collection.Aggregate`,
drain the cursor stripping the `path` field of every document. -/
def vectorSearchBranch (t : Tool) (store : Store) (pm : Doc) : InvokeResult :=
  let filter := overlay t.Query pm
  match getStr (lookupKey pm "indexName") with
  | none =>
      { ret := Except.error "invalid or missing indexName for aggregate operation"
        query := filter
        calls := []
        debugPrint := none }
  | some indexName =>
    match getArr (lookupKey pm "embeddings") with
    | none =>
        { ret := Except.error "invalid or missing embeddings for aggregate operation"
          query := filter
          calls := []
          debugPrint := none }
    | some embeddings =>
      match getStr (lookupKey pm "path") with
      | none =>
          { ret := Except.error "invalid or missing path for aggregate operation"
            query := filter
            calls := []
            debugPrint := none }
      | some path =>
        let pipeline := [vectorStage indexName embeddings path]
        match store.aggregate pipeline with
        | Except.error e =>
            { ret := Except.error ("unable to execute aggregate query: " ++ e)
              query := filter
              calls := [StoreCall.aggregateCall pipeline]
              debugPrint := none }
        | Except.ok cur =>
            { ret := drainCursor cur (fun d => deleteKey d path)
              query := filter
              calls := [StoreCall.aggregateCall pipeline]
              debugPrint := none }

/-- Embedding of Go `Tool.Invoke`: the operation switch.  `params` is the
validated `tools.ParamValues`; `store` stands for the collection handle.
In Go, `filter := t.Query` aliases the stored map, so the overlay loops
write through to the tool's stored template: the `query` field of the
result is the stored template's state after the call. -/
def Tool.invoke (t : Tool) (store : Store) (params : List (String × Value)) :
    InvokeResult :=
  let pm := asMap params
  if t.Operation == "find" then
    findBranch t store pm
  else if t.Operation == "aggregate" then
    aggregateBranch t pm
  else if t.Operation == "vectorSearch" then
    vectorSearchBranch t store pm
  else
    { ret := Except.error ("unsupported operation: " ++ t.Operation)
      query := t.Query
      calls := []
      debugPrint := none }

/-- Modelled from the spec: `tools.IsAuthorized` is not among the provided
source files (only its caller `Tool.Authorized` is).  Spec §4.3: if the
declared required-service list is empty, always authorized; otherwise
authorized iff at least one declared required service is present in the
verified set (OR semantics). -/
def IsAuthorized (authRequired verifiedAuthServices : List String) : Bool :=
  authRequired.isEmpty ||
    authRequired.any (fun s => verifiedAuthServices.contains s)

/-- Embedding of Go `Tool.Authorized`. -/
def Tool.authorized (t : Tool) (verifiedAuthServices : List String) : Bool :=
  IsAuthorized t.AuthRequired verifiedAuthServices

/-! ### Concrete fixtures used by witnesses and counterexamples -/

/-- A store whose reads succeed with an empty stream. -/
def emptyStore : Store :=
  { find := fun _ => Except.ok { items := [], finalErr := none }
    aggregate := fun _ => Except.ok { items := [], finalErr := none } }

/-- A concrete bound tool with the given operation kind and base query. -/
def mkTool (op : String) (q : Doc) : Tool :=
  { Name := "t"
    Kind := ToolKind
    AuthRequired := []
    Parameters := []
    Operation := op
    Database := "db"
    Collection := "c"
    RequestBody := ""
    Query := q }

/-- A store whose aggregation returns one document that still carries an
`embedding` field (used to witness the strip). -/
def oneDocStore : Store :=
  { find := fun _ => Except.ok { items := [], finalErr := none }
    aggregate := fun _ => Except.ok
      { items := [Except.ok
          [("title", Value.str "a"), ("embedding", Value.arr [Value.dbl "0.1"])]]
        finalErr := none } }

/-! ### Theorems -/

/-- Switch selection: operation kind `find` runs the find branch. -/
theorem invoke_op_find (t : Tool) (store : Store)
    (params : List (String × Value)) (hop : t.Operation = "find") :
    t.invoke store params = findBranch t store (asMap params) := by
  unfold Tool.invoke
  rw [hop]
  rfl

/-- Switch selection: operation kind `aggregate` runs the aggregate
branch. -/
theorem invoke_op_aggregate (t : Tool) (store : Store)
    (params : List (String × Value)) (hop : t.Operation = "aggregate") :
    t.invoke store params = aggregateBranch t (asMap params) := by
  unfold Tool.invoke
  rw [hop]
  rfl

/-- Switch selection: operation kind `vectorSearch` runs the
vector-search branch. -/
theorem invoke_op_vs (t : Tool) (store : Store)
    (params : List (String × Value)) (hop : t.Operation = "vectorSearch") :
    t.invoke store params = vectorSearchBranch t store (asMap params) := by
  unfold Tool.invoke
  rw [hop]
  rfl

/-- Once the three required parameters pass their checks, the
vector-search branch issues the one-stage `$vectorSearch` pipeline and
drains the answer stripping the `path` field. -/
theorem vsBranch_success (t : Tool) (store : Store) (pm : Doc)
    (ix pa : String) (emb : List Value)
    (h1 : getStr (lookupKey pm "indexName") = some ix)
    (h2 : getArr (lookupKey pm "embeddings") = some emb)
    (h3 : getStr (lookupKey pm "path") = some pa) :
    vectorSearchBranch t store pm =
      match store.aggregate [vectorStage ix emb pa] with
      | Except.error e =>
          { ret := Except.error ("unable to execute aggregate query: " ++ e)
            query := overlay t.Query pm
            calls := [StoreCall.aggregateCall [vectorStage ix emb pa]]
            debugPrint := none }
      | Except.ok cur =>
          { ret := drainCursor cur (fun d => deleteKey d pa)
            query := overlay t.Query pm
            calls := [StoreCall.aggregateCall [vectorStage ix emb pa]]
            debugPrint := none } := by
  simp only [vectorSearchBranch, h1, h2, h3]

/-- C4: `Authorized` returns true when the required-service list is
empty, and otherwise returns true iff at least one declared required
service is among the verified services (OR semantics); in particular it
is false on the empty verified set for a non-empty requirement list. -/
theorem authorized_or_semantics (t : Tool) (ver : List String) :
    t.authorized ver = true ↔
      (t.AuthRequired = [] ∨ ∃ s, s ∈ t.AuthRequired ∧ s ∈ ver) := by
  simp [Tool.authorized, IsAuthorized, List.isEmpty_iff, List.any_eq_true]

/-- C9: `Config.Initialize` returns a bound tool exactly when the source
map has an entry under the configured source name and that entry is a
MongoDB source; otherwise it returns an error and no tool.  The check is
part of binding (`initTool`), which runs before any invocation. -/
theorem initTool_ok_iff (cfg : Config) (srcs : List (String × Sources.Source)) :
    (∃ t, cfg.initTool srcs = Except.ok t) ↔
      (∃ db, lookupSource srcs cfg.Source = some (Sources.Source.mongodb db)) := by
  unfold Config.initTool
  cases h : lookupSource srcs cfg.Source with
  | none => simp
  | some s => cases s <;> simp

/-- C6: for any operation kind other than `find`, `aggregate` and
`vectorSearch`, `Invoke` returns an unsupported-operation error naming
the configured kind and issues no call to the backing store. -/
theorem unsupported_operation_error (t : Tool) (store : Store)
    (params : List (String × Value))
    (h1 : t.Operation ≠ "find") (h2 : t.Operation ≠ "aggregate")
    (h3 : t.Operation ≠ "vectorSearch") :
    (t.invoke store params).ret =
        Except.error ("unsupported operation: " ++ t.Operation) ∧
      (t.invoke store params).calls = [] := by
  unfold Tool.invoke
  simp [h1, h2, h3]

/-- Witness for C6 at operation kind `"update"`. -/
theorem unsupported_operation_error_witness :
    ((mkTool "update" []).invoke emptyStore []).ret =
        Except.error ("unsupported operation: " ++ (mkTool "update" []).Operation) ∧
      ((mkTool "update" []).invoke emptyStore []).calls = [] :=
  unsupported_operation_error (mkTool "update" []) emptyStore []
    (by decide) (by decide) (by decide)

/-- C3: for operation kind `aggregate`, `Invoke` builds the staged
pipeline (one stage per validated parameter) and the overlaid filter,
prints them, and then returns the `aggregate operation not implemented`
error with no result sequence, never calling the backing store. -/
theorem aggregate_not_implemented (t : Tool) (store : Store)
    (params : List (String × Value)) (hop : t.Operation = "aggregate") :
    (t.invoke store params).ret =
        Except.error "aggregate operation not implemented" ∧
      (t.invoke store params).calls = [] ∧
      (t.invoke store params).debugPrint =
        some (overlay t.Query (asMap params),
              (asMap params).map (fun p => [(p.1, p.2)])) := by
  rw [invoke_op_aggregate t store params hop]
  exact ⟨rfl, rfl, rfl⟩

/-- Witness for C3: a concrete aggregate tool with one parameter. -/
theorem aggregate_not_implemented_witness :
    ((mkTool "aggregate" []).invoke emptyStore [("a", Value.int 1)]).ret =
        Except.error "aggregate operation not implemented" ∧
      ((mkTool "aggregate" []).invoke emptyStore [("a", Value.int 1)]).calls = [] ∧
      ((mkTool "aggregate" []).invoke emptyStore [("a", Value.int 1)]).debugPrint =
        some (overlay (mkTool "aggregate" []).Query (asMap [("a", Value.int 1)]),
              (asMap [("a", Value.int 1)]).map (fun p => [(p.1, p.2)])) :=
  aggregate_not_implemented (mkTool "aggregate" []) emptyStore
    [("a", Value.int 1)] rfl

/-- Helper: in the `vectorSearch` branch, once the three required
parameters pass their checks, the pipeline sent to the store is exactly
the single `$vectorSearch` stage, whatever the store then returns. -/
theorem invoke_vs_calls (t : Tool) (store : Store)
    (params : List (String × Value)) (ix pa : String) (emb : List Value)
    (hop : t.Operation = "vectorSearch")
    (h1 : getStr (lookupKey (asMap params) "indexName") = some ix)
    (h2 : getArr (lookupKey (asMap params) "embeddings") = some emb)
    (h3 : getStr (lookupKey (asMap params) "path") = some pa) :
    (t.invoke store params).calls =
      [StoreCall.aggregateCall [vectorStage ix emb pa]] := by
  rw [invoke_op_vs t store params hop,
      vsBranch_success t store (asMap params) ix pa emb h1 h2 h3]
  cases store.aggregate [vectorStage ix emb pa] <;> rfl

/-- C1 (the code violates the claim): invoking a `find` tool with overlay
parameter `b = 2` writes `b` into the tool's stored base template (in Go,
`filter := t.Query` aliases the stored map), so after the invocation the
stored template differs from its bind-time value. -/
theorem template_mutation_bug :
    ((mkTool "find" [("a", Value.int 1)]).invoke emptyStore
        [("b", Value.int 2)]).query =
      [("a", Value.int 1), ("b", Value.int 2)] ∧
    lookupKey ((mkTool "find" [("a", Value.int 1)]).invoke emptyStore
        [("b", Value.int 2)]).query "b" = some (Value.int 2) ∧
    lookupKey (mkTool "find" [("a", Value.int 1)]).Query "b" = none := by
  refine ⟨rfl, rfl, rfl⟩

/-- Counterexample to C2: a `vectorSearch` invocation with an overlaid
filter parameter `color = "red"` present still executes a one-stage
pipeline holding only the `$vectorSearch` stage — no equality pre-stage
for the overlaid filter parameters is ever appended. -/
theorem vectorSearch_no_match_stage_cex :
    ((mkTool "vectorSearch" []).invoke emptyStore
        [("color", Value.str "red"),
         ("indexName", Value.str "vec_idx"),
         ("embeddings", Value.arr [Value.dbl "0.1", Value.dbl "0.2", Value.dbl "0.3"]),
         ("path", Value.str "embedding")]).calls =
      [StoreCall.aggregateCall
        [vectorStage "vec_idx"
          [Value.dbl "0.1", Value.dbl "0.2", Value.dbl "0.3"] "embedding"]] := by
  rfl

/-- C2 as amended: for a `vectorSearch` tool with validated `indexName`,
`embeddings` and `path`, the executed pipeline consists solely of the
vector-similarity stage parameterized by them with `numCandidates = 10`
and `limit = 10`; no filter pre-stage is appended. -/
theorem vectorSearch_pipeline_single_stage (t : Tool) (store : Store)
    (params : List (String × Value)) (ix pa : String) (emb : List Value)
    (hop : t.Operation = "vectorSearch")
    (h1 : getStr (lookupKey (asMap params) "indexName") = some ix)
    (h2 : getArr (lookupKey (asMap params) "embeddings") = some emb)
    (h3 : getStr (lookupKey (asMap params) "path") = some pa) :
    (t.invoke store params).calls =
      [StoreCall.aggregateCall
        [[("$vectorSearch", Value.doc
            [("index", Value.str ix),
             ("queryVector", Value.arr emb),
             ("path", Value.str pa),
             ("numCandidates", Value.int 10),
             ("limit", Value.int 10)])]]] :=
  invoke_vs_calls t store params ix pa emb hop h1 h2 h3

/-- Witness for the amended C2 at the spec's example input. -/
theorem vectorSearch_pipeline_single_stage_witness :
    ((mkTool "vectorSearch" []).invoke emptyStore
        [("indexName", Value.str "vec_idx"),
         ("embeddings", Value.arr [Value.dbl "0.1", Value.dbl "0.2", Value.dbl "0.3"]),
         ("path", Value.str "embedding")]).calls =
      [StoreCall.aggregateCall
        [[("$vectorSearch", Value.doc
            [("index", Value.str "vec_idx"),
             ("queryVector", Value.arr
                [Value.dbl "0.1", Value.dbl "0.2", Value.dbl "0.3"]),
             ("path", Value.str "embedding"),
             ("numCandidates", Value.int 10),
             ("limit", Value.int 10)])]]] :=
  vectorSearch_pipeline_single_stage (mkTool "vectorSearch" []) emptyStore
    [("indexName", Value.str "vec_idx"),
     ("embeddings", Value.arr [Value.dbl "0.1", Value.dbl "0.2", Value.dbl "0.3"]),
     ("path", Value.str "embedding")]
    "vec_idx" "embedding"
    [Value.dbl "0.1", Value.dbl "0.2", Value.dbl "0.3"] rfl rfl rfl rfl

/-- C7: a `find` invocation whose store call succeeds with an empty
stream and no stream error returns an empty result sequence and no
error. -/
theorem find_empty_ok (t : Tool) (store : Store)
    (params : List (String × Value)) (hop : t.Operation = "find")
    (hstore : store.find (overlay t.Query (asMap params)) =
        Except.ok { items := [], finalErr := none }) :
    (t.invoke store params).ret = Except.ok [] := by
  rw [invoke_op_find t store params hop]
  simp [findBranch, hstore, drainCursor, drainItems]

/-- Witness for C7: a concrete `find` tool against the empty store. -/
theorem find_empty_ok_witness :
    ((mkTool "find" []).invoke emptyStore []).ret = Except.ok [] :=
  find_empty_ok (mkTool "find" []) emptyStore [] rfl rfl

/-- C5: a `vectorSearch` invocation whose validated parameters are
missing or wrongly typed at `indexName`, `embeddings` or `path` returns
an error naming a failing parameter and issues no store call. -/
theorem vectorSearch_param_error (t : Tool) (store : Store)
    (params : List (String × Value))
    (hop : t.Operation = "vectorSearch")
    (hbad : getStr (lookupKey (asMap params) "indexName") = none ∨
            getArr (lookupKey (asMap params) "embeddings") = none ∨
            getStr (lookupKey (asMap params) "path") = none) :
    ∃ p, ((p = "indexName" ∧ getStr (lookupKey (asMap params) "indexName") = none) ∨
          (p = "embeddings" ∧ getArr (lookupKey (asMap params) "embeddings") = none) ∨
          (p = "path" ∧ getStr (lookupKey (asMap params) "path") = none)) ∧
      (t.invoke store params).ret =
        Except.error ("invalid or missing " ++ p ++ " for aggregate operation") ∧
      (t.invoke store params).calls = [] := by
  rw [invoke_op_vs t store params hop]
  cases hidx : getStr (lookupKey (asMap params) "indexName") with
  | none =>
      refine ⟨"indexName", Or.inl ⟨rfl, rfl⟩, ?_, ?_⟩ <;>
        simp [vectorSearchBranch, hidx]
  | some ix =>
    cases hemb : getArr (lookupKey (asMap params) "embeddings") with
    | none =>
        refine ⟨"embeddings", Or.inr (Or.inl ⟨rfl, rfl⟩), ?_, ?_⟩ <;>
          simp [vectorSearchBranch, hidx, hemb]
    | some emb =>
      cases hpa : getStr (lookupKey (asMap params) "path") with
      | none =>
          refine ⟨"path", Or.inr (Or.inr ⟨rfl, rfl⟩), ?_, ?_⟩ <;>
            simp [vectorSearchBranch, hidx, hemb, hpa]
      | some pa => rcases hbad with h | h | h <;> simp_all

/-- Witness for C5: `vectorSearch` invoked without an `indexName`. -/
theorem vectorSearch_param_error_witness :
    ∃ p, ((p = "indexName" ∧
            getStr (lookupKey (asMap [("path", Value.str "embedding")]) "indexName") = none) ∨
          (p = "embeddings" ∧
            getArr (lookupKey (asMap [("path", Value.str "embedding")]) "embeddings") = none) ∨
          (p = "path" ∧
            getStr (lookupKey (asMap [("path", Value.str "embedding")]) "path") = none)) ∧
      ((mkTool "vectorSearch" []).invoke emptyStore
          [("path", Value.str "embedding")]).ret =
        Except.error ("invalid or missing " ++ p ++ " for aggregate operation") ∧
      ((mkTool "vectorSearch" []).invoke emptyStore
          [("path", Value.str "embedding")]).calls = [] :=
  vectorSearch_param_error (mkTool "vectorSearch" []) emptyStore
    [("path", Value.str "embedding")] rfl (Or.inl rfl)

/-- Looking up `k` after `delete(m, k)` finds nothing. -/
theorem lookupKey_deleteKey (m : Doc) (k : String) :
    lookupKey (deleteKey m k) k = none := by
  have h : ∀ p ∈ deleteKey m k, ¬ ((p.1 == k) = true) := by
    intro p hp
    have := List.of_mem_filter hp
    simpa using this
  simp [lookupKey, List.find?_eq_none.mpr h]

/-- Every document produced by draining a stream through `f` is the
image under `f` of some decoded document. -/
theorem drainItems_mem (items : List (Except String Doc)) (f : Doc → Doc)
    (ds : List Doc) (h : drainItems items f = Except.ok ds) :
    ∀ d ∈ ds, ∃ d0, d = f d0 := by
  induction items generalizing ds with
  | nil =>
      unfold drainItems at h
      cases h
      intro d hd
      cases hd
  | cons it rest ih =>
      cases it with
      | error e => unfold drainItems at h; exact Except.noConfusion h
      | ok d0 =>
          unfold drainItems at h
          cases hr : drainItems rest f with
          | error e => rw [hr] at h; exact Except.noConfusion h
          | ok ds' =>
              rw [hr] at h
              have hds : f d0 :: ds' = ds := Except.ok.inj h
              subst hds
              intro d hd
              cases hd with
              | head => exact ⟨d0, rfl⟩
              | tail _ hd => exact ih ds' hr d hd

/-- C8: when a `vectorSearch` invocation returns a result sequence, every
returned document has the top-level field named by the `path` parameter
removed. -/
theorem vectorSearch_strips_path (t : Tool) (store : Store)
    (params : List (String × Value)) (pa : String) (docs : List Doc)
    (hop : t.Operation = "vectorSearch")
    (h3 : getStr (lookupKey (asMap params) "path") = some pa)
    (hret : (t.invoke store params).ret = Except.ok docs) :
    ∀ d ∈ docs, lookupKey d pa = none := by
  rw [invoke_op_vs t store params hop] at hret
  cases hidx : getStr (lookupKey (asMap params) "indexName") with
  | none => simp [vectorSearchBranch, hidx] at hret
  | some ix =>
    cases hemb : getArr (lookupKey (asMap params) "embeddings") with
    | none => simp [vectorSearchBranch, hidx, hemb] at hret
    | some emb =>
      rw [vsBranch_success t store (asMap params) ix pa emb hidx hemb h3] at hret
      cases hagg : store.aggregate [vectorStage ix emb pa] with
      | error e => rw [hagg] at hret; exact Except.noConfusion hret
      | ok cur =>
          rw [hagg] at hret
          have hd2 : drainCursor cur (fun d => deleteKey d pa) =
              Except.ok docs := hret
          unfold drainCursor at hd2
          cases hdr : drainItems cur.items (fun d => deleteKey d pa) with
          | error e => rw [hdr] at hd2; exact Except.noConfusion hd2
          | ok ds =>
              rw [hdr] at hd2
              cases hfin : cur.finalErr with
              | some e => rw [hfin] at hd2; exact Except.noConfusion hd2
              | none =>
                  rw [hfin] at hd2
                  have hds : ds = docs := Except.ok.inj hd2
                  subst hds
                  intro d hd
                  obtain ⟨d0, rfl⟩ := drainItems_mem cur.items _ ds hdr d hd
                  exact lookupKey_deleteKey d0 pa

/-- Witness for C8: the store returns a document with an `embedding`
field; the invocation's result has it stripped. -/
theorem vectorSearch_strips_path_witness :
    ((mkTool "vectorSearch" []).invoke oneDocStore
        [("indexName", Value.str "vec_idx"),
         ("embeddings", Value.arr [Value.dbl "0.1"]),
         ("path", Value.str "embedding")]).ret =
      Except.ok [[("title", Value.str "a")]] ∧
    ∀ d ∈ [[("title", Value.str "a")]], lookupKey d "embedding" = none := by
  constructor
  · rfl
  · exact vectorSearch_strips_path (mkTool "vectorSearch" []) oneDocStore
      [("indexName", Value.str "vec_idx"),
       ("embeddings", Value.arr [Value.dbl "0.1"]),
       ("path", Value.str "embedding")]
      "embedding" [[("title", Value.str "a")]] rfl rfl rfl

/-- C10: the `embeddings` check in the `vectorSearch` branch only
requires a generic sequence — any sequence (its element values never
inspected) passes and is placed in the `$vectorSearch` stage unmodified,
while a non-sequence value or absence is rejected before any store
call. -/
theorem embeddings_generic_sequence (t : Tool) (store : Store)
    (params : List (String × Value)) (ix pa : String)
    (hop : t.Operation = "vectorSearch")
    (h1 : getStr (lookupKey (asMap params) "indexName") = some ix)
    (h3 : getStr (lookupKey (asMap params) "path") = some pa) :
    (∀ l, lookupKey (asMap params) "embeddings" = some (Value.arr l) →
        (t.invoke store params).calls =
          [StoreCall.aggregateCall [vectorStage ix l pa]]) ∧
    (getArr (lookupKey (asMap params) "embeddings") = none →
        (t.invoke store params).ret =
            Except.error "invalid or missing embeddings for aggregate operation" ∧
          (t.invoke store params).calls = []) := by
  constructor
  · intro l hl
    have h2 : getArr (lookupKey (asMap params) "embeddings") = some l := by
      rw [hl]; rfl
    exact invoke_vs_calls t store params ix pa l hop h1 h2 h3
  · intro h2
    rw [invoke_op_vs t store params hop]
    constructor <;> simp [vectorSearchBranch, h1, h2]

/-- Witness for C10: a sequence of non-numeric elements passes the check
and reaches the store unmodified. -/
theorem embeddings_generic_sequence_witness :
    ((∀ l, lookupKey (asMap [("indexName", Value.str "i"),
          ("embeddings", Value.arr [Value.str "x", Value.bool true]),
          ("path", Value.str "p")]) "embeddings" = some (Value.arr l) →
        ((mkTool "vectorSearch" []).invoke emptyStore
            [("indexName", Value.str "i"),
             ("embeddings", Value.arr [Value.str "x", Value.bool true]),
             ("path", Value.str "p")]).calls =
          [StoreCall.aggregateCall [vectorStage "i" l "p"]]) ∧
     (getArr (lookupKey (asMap [("indexName", Value.str "i"),
          ("embeddings", Value.arr [Value.str "x", Value.bool true]),
          ("path", Value.str "p")]) "embeddings") = none →
        ((mkTool "vectorSearch" []).invoke emptyStore
            [("indexName", Value.str "i"),
             ("embeddings", Value.arr [Value.str "x", Value.bool true]),
             ("path", Value.str "p")]).ret =
            Except.error "invalid or missing embeddings for aggregate operation" ∧
          ((mkTool "vectorSearch" []).invoke emptyStore
              [("indexName", Value.str "i"),
               ("embeddings", Value.arr [Value.str "x", Value.bool true]),
               ("path", Value.str "p")]).calls = [])) :=
  embeddings_generic_sequence (mkTool "vectorSearch" []) emptyStore
    [("indexName", Value.str "i"),
     ("embeddings", Value.arr [Value.str "x", Value.bool true]),
     ("path", Value.str "p")] "i" "p" rfl rfl rfl

end Mongodb
